import Mathlib

/-!
Verification of the weather-to-energy conversion functions in
`energy_model_functions.py` and `load_a_netcdf_example.py`
(2021-Energy-Climate-Hackathon / group_7).

Numbers are modelled as exact rationals (`ℚ`); numpy arrays become nested
lists ([time, lat, lon] fields are `List (List (List ℚ))`, [lat, lon]
fields are `List (List ℚ)`).  Python exceptions are modelled by `PyError`,
and a call that can raise returns `Except PyError α`.  Several functions in
the source unconditionally raise (they read names that are never bound, or
call numpy in ways numpy rejects); the embedding reproduces those failures
rather than the behaviour their docstrings promise.
-/

/-- Python exceptions raised by the modelled code.  Note that in Python,
`IndexError` is a subclass of `LookupError`. -/
inductive PyError where
  | nameError (name : String)
  | typeError (msg : String)
  | zeroDivisionError (msg : String)
  | indexError (msg : String)
  deriving Repr, DecidableEq

/-- A 3D field indexed [time, lat, lon]. -/
def Field3 : Type := List (List (List ℚ))

/-- A 2D field indexed [lat, lon]. -/
def Field2 : Type := List (List ℚ)

/-- Sum of all entries of a 2D array. -/
def sum2 (a : Field2) : ℚ :=
  (a.map (fun row => row.sum)).sum

/-- Sum of the elementwise product of two 2D arrays of equal shape
(numpy `np.multiply(a, w).sum()`). -/
def dot2 (a w : Field2) : ℚ :=
  ((List.zipWith (fun ra rw => (List.zipWith (· * ·) ra rw).sum) a w)).sum

/-- The shape of a 2D array: the list of its row lengths (for rectangular
numpy arrays this determines the pair (rows, cols)). -/
def shape2 (a : Field2) : List ℕ :=
  a.map List.length

/-- Model of `np.average(a, weights=w)` with no `axis` argument, for a 2D
`a` and 2D `w`.  numpy raises `TypeError` when the shapes differ and the
axis is unspecified, raises `ZeroDivisionError` when the weights sum to
zero, and otherwise returns the scalar `(a*w).sum() / w.sum()`. -/
def npAverage2 (a w : Field2) : Except PyError ℚ :=
  if shape2 a ≠ shape2 w then
    .error (.typeError "Axis must be specified when shapes of a and weights differ.")
  else if sum2 w = 0 then
    .error (.zeroDivisionError "Weights sum to zero, can't be normalized")
  else
    .ok (dot2 a w / sum2 w)

/-- Model of `np.average(a, weights=w)` with no `axis` argument, for a 3D
`a` and 2D `w`.  The number of dimensions always differs, so numpy
unconditionally raises `TypeError`. -/
def npAverage3w2 (_a : Field3) (_w : Field2) : Except PyError ℚ :=
  .error (.typeError "Axis must be specified when shapes of a and weights differ.")

/-- Unit conversion applied by both loaders (`energy_model_functions.py`
lines 62-65 and `load_a_netcdf_example.py` lines 43-46): `t2m` data has
273.15 subtracted (Kelvin to Celsius), `ssrd` data is divided by 3600
(J·h⁻¹·m⁻² to W·m⁻²), every other key is passed through unchanged. -/
def convert_units (nc_key : String) (data : Field3) : Field3 :=
  let data := if nc_key == "t2m" then data.map (List.map (List.map (fun x => x - 273.15))) else data
  let data := if nc_key == "ssrd" then data.map (List.map (List.map (fun x => x / 3600))) else data
  data

/-- Embedding of `load_weather_data_daily` from `load_a_netcdf_example.py`:
the NetCDF read is abstracted to passing in the raw `data`, `lons`, `lats`;
the function applies the unit conversions and returns `(data, lons, lats)`. -/
def load_weather_data_daily (nc_key : String) (data : Field3) (lons lats : List ℚ) :
    Field3 × List ℚ × List ℚ :=
  (convert_units nc_key data, lons, lats)

/-- A shapely geometry (one polygon part of a country), abstracted to its
containment predicate on (lon, lat) points: `r p` models
`r.contains(Point(p))`. -/
def Region : Type := ℚ × ℚ → Bool

/-- Model of `shapely_geometry.contains(Point(x, y))`. -/
def contains (r : Region) (p : ℚ × ℚ) : Bool := r p

/-- The mask-construction loop of `load_country_weather_data` (lines 67-78):
grid cell centers are the meshgrid of `lons` and `lats`; each point is
tested with `country_shapely[0].contains(my_point)` — only the FIRST
polygon part in the list is ever consulted.  When `country_shapely` is
empty, the first loop iteration raises `IndexError` (a Python
`LookupError`); when the grid has no points the loop body never runs and an
all-zero mask of shape (len lats, len lons) is returned. -/
def build_mask_matrix (country_shapely : List Region) (lons lats : List ℚ) :
    Except PyError Field2 :=
  match country_shapely with
  | [] =>
    if lons.length * lats.length = 0 then
      .ok (lats.map (fun _ => lons.map (fun _ => (0 : ℚ))))
    else
      .error (.indexError "list index out of range")
  | part0 :: _ =>
    .ok (lats.map (fun la => lons.map (fun lo =>
      if contains part0 (lo, la) then (1 : ℚ) else 0)))

/-- Broadcast multiplication `data * MASK_MATRIX_RESHAPE` of a [time, lat,
lon] field by a [lat, lon] mask (line 82). -/
def apply_mask (data : Field3) (mask : Field2) : Field3 :=
  data.map (fun slice => List.zipWith (fun row mrow => List.zipWith (· * ·) row mrow) slice mask)

/-- Embedding of `load_country_weather_data` from `energy_model_functions.py`.
The shapefile scan is abstracted to the list `country_shapely` of polygon
parts whose `NAME_LONG` matched `COUNTRY`, and the NetCDF read to the raw
`data`, `lons`, `lats`.  The function converts units, builds the mask (which
can raise), multiplies it into the data and returns both. -/
def load_country_weather_data (country_shapely : List Region) (nc_key : String)
    (data : Field3) (lons lats : List ℚ) : Except PyError (Field3 × Field2) := do
  let data := convert_units nc_key data
  let MASK_MATRIX_RESHAPE ← build_mask_matrix country_shapely lons lats
  .ok (apply_mask data MASK_MATRIX_RESHAPE, MASK_MATRIX_RESHAPE)

/-- Embedding of `solar_PV_model` (lines 89-124).  The local constants
`T_ref`, `eff_ref`, `beta_ref`, `G_ref` are bound, but line 117 then reads
the names `Masked_T2m`, `Masked_SWGDN` and `MASK_MATRIX_RESHAPE`, none of
which is a parameter or bound in the module scope: in a fresh scope the
first read, `Masked_T2m`, raises `NameError` before anything else happens,
whatever the arguments are. -/
def solar_PV_model (_country_masked_data_T2m _country_masked_data_ssrd : Field3) :
    Except PyError (List ℚ) :=
  .error (.nameError "Masked_T2m")

/-- Embedding of `calc_hdd_cdd` (lines 130-172).  Line 153 calls
`np.average(t2m_array, weights=country_mask)` with no axis on a
[time, lat, lon] array and a [lat, lon] mask, which numpy rejects with
`TypeError`; the rest of the body (a `len` of a scalar, `np.zeros(len)`
applied to the builtin, and loops bounded by the unbound name
`len_of_training_period`) is unreachable. -/
def calc_hdd_cdd (t2m_array : Field3) (country_mask : Field2) :
    Except PyError (List ℚ × List ℚ) := do
  let _spatial_mean_t2m ← npAverage3w2 t2m_array country_mask
  .error (.nameError "len_of_training_period")

/-- Embedding of `calc_national_wd_demand_2017` (lines 175-202).  The body
consists solely of `return(demand_timeseries)`, and `demand_timeseries` is
never bound anywhere, so every call raises `NameError`. -/
def calc_national_wd_demand_2017 (_hdd _cdd : List ℚ)
    (_filestr_reg_coefficients _COUNTRY : String) : Except PyError (List ℚ) :=
  .error (.nameError "demand_timeseries")

/-- The degree-day model as the spec words it (§4.3, substituted for the
broken loop bound in `calc_hdd_cdd`): per timestep,
`HDD[i] = 15.5 - T[i]` when `T[i] ≤ 15.5` else `0`, and
`CDD[i] = T[i] - 22` when `T[i] ≥ 22` else `0`, over the full series. -/
def calc_hdd_cdd_intended (t2m_series : List ℚ) : List ℚ × List ℚ :=
  (t2m_series.map (fun T => if T ≤ 15.5 then 15.5 - T else 0),
   t2m_series.map (fun T => if 22 ≤ T then T - 22 else 0))

/-- The spatial-mean step as the spec words it (§4.2): for each timestep
independently, the mask-weighted mean of that timestep's [lat, lon] slice. -/
def spatial_mean_intended (field : Field3) (mask : Field2) : List ℚ :=
  field.map (fun slice => dot2 slice mask / sum2 mask)

/-- The plain unweighted spatial mean of each timestep's slice. -/
def plain_spatial_mean (field : Field3) : List ℚ :=
  field.map (fun slice => sum2 slice / (slice.map List.length).sum)

/-- The solar capacity-factor model as the spec words it (§4.4): per cell
`efficiency = 0.9 * (1 - 0.0042 * (T - 25))` and
`capacity_factor = efficiency * (irradiance / 1000)`, then the mask-weighted
spatial mean per timestep.  (`np.nan_to_num`'s NaN-to-0 step has no effect
in exact rational arithmetic, where `0 / 0 = 0` already.) -/
def solar_PV_intended (t2m ssrd : Field3) (mask : Field2) : List ℚ :=
  List.zipWith (fun Ts Gs =>
    dot2 (List.zipWith (fun Tr Gr =>
      List.zipWith (fun T G => (0.9 * (1 - 0.0042 * (T - 25))) * (G / 1000)) Tr Gr) Ts Gs) mask
      / sum2 mask) t2m ssrd

/-- The demand regression model as the spec words it (§4.5):
`demand[i] = b0 + b1 * HDD[i] + b2 * CDD[i]`. -/
def demand_intended (b0 b1 b2 : ℚ) (hdd cdd : List ℚ) : List ℚ :=
  List.zipWith (fun h c => b0 + b1 * h + b2 * c) hdd cdd

/-- The mask construction as the spec words it (§4.1): a cell is 1.0 iff
its center is contained in ANY polygon part. -/
def build_mask_intended (parts : List Region) (lons lats : List ℚ) : Field2 :=
  lats.map (fun la => lons.map (fun lo =>
    if parts.any (fun p => contains p (lo, la)) then (1 : ℚ) else 0))

/-- Helper regions for concrete evaluations: a part containing no point and
a part containing every point. -/
def part_none : Region := fun _ => false

def part_all : Region := fun _ => true

/-- Claim C1: the spec reads `calc_hdd_cdd` as returning, for a spatial-mean
temperature series T, HDD[i] = max(0, 15.5 - T[i]) and
CDD[i] = max(0, T[i] - 22) per timestep over the full series.  The code
instead crashes on every call: `np.average` without an axis rejects the
[time, lat, lon] / [lat, lon] shape pair, and the later loops are bounded by
the unbound name `len_of_training_period`.  At the reference input (five
timesteps of a 1x1 grid carrying 10, 15.5, 16, 22, 25 with an all-ones
mask) the call raises, while the intended per-timestep model produces
exactly the claimed HDD and CDD series. -/
theorem calc_hdd_cdd_crashes_on_reference_input :
    calc_hdd_cdd [[[10]], [[15.5]], [[16]], [[22]], [[25]]] [[1]]
      = Except.error (PyError.typeError
          "Axis must be specified when shapes of a and weights differ.") ∧
    calc_hdd_cdd_intended [10, 15.5, 16, 22, 25]
      = ([5.5, 0, 0, 0, 0], [0, 0, 0, 0, 3]) := by
  exact ⟨rfl, by norm_num [calc_hdd_cdd_intended]⟩

/-- Claim C2: the spec describes the spatial-mean step as a per-timestep
mask-weighted mean returning a length-time series.  The code calls
`np.average(field, weights=mask)` with no `axis` argument, which numpy
rejects with `TypeError` for every 3D field and 2D mask, so `calc_hdd_cdd`
never produces the series.  The intended per-timestep model does, and under
an all-ones mask it agrees with the plain unweighted spatial mean. -/
theorem spatial_mean_step_crashes :
    npAverage3w2 [[[2]], [[4]]] [[1]]
      = Except.error (PyError.typeError
          "Axis must be specified when shapes of a and weights differ.") ∧
    calc_hdd_cdd [[[2]], [[4]]] [[1]]
      = Except.error (PyError.typeError
          "Axis must be specified when shapes of a and weights differ.") ∧
    spatial_mean_intended [[[2]], [[4]]] [[1]] = [2, 4] ∧
    spatial_mean_intended [[[1, 2], [3, 4]]] [[1, 1], [1, 1]]
      = plain_spatial_mean [[[1, 2], [3, 4]]] := by
  refine ⟨rfl, rfl, ?_, ?_⟩
  · norm_num [spatial_mean_intended, dot2, sum2]
  · norm_num [spatial_mean_intended, plain_spatial_mean, dot2, sum2]

/-- Claim C3: for every mask whose weights sum to zero, the spatial-mean
computation (`np.average` with `weights=mask`) raises rather than returning
a NaN-bearing series: `ZeroDivisionError` when the shapes match, and the
axis `TypeError` when a 3D field meets a 2D mask. -/
theorem npAverage_zero_mask_errors :
    (∀ a w : Field2, sum2 w = 0 → ∃ e, npAverage2 a w = Except.error e) ∧
    (∀ (a : Field3) (w : Field2), npAverage3w2 a w
      = Except.error (PyError.typeError
          "Axis must be specified when shapes of a and weights differ.")) := by
  constructor
  · intro a w hw
    unfold npAverage2
    rcases eq_or_ne (shape2 a) (shape2 w) with hsh | hsh
    · rw [if_neg (not_not_intro hsh), if_pos hw]
      exact ⟨_, rfl⟩
    · rw [if_pos hsh]
      exact ⟨_, rfl⟩
  · intro a w
    rfl

/-- Witness for C3 at the concrete 1x1 field [[1]] and zero mask [[0]]. -/
theorem npAverage_zero_mask_errors_witness :
    sum2 [[(0 : ℚ)]] = 0 ∧ ∃ e, npAverage2 [[(1 : ℚ)]] [[(0 : ℚ)]] = Except.error e :=
  ⟨by simp [sum2], npAverage_zero_mask_errors.1 [[(1 : ℚ)]] [[(0 : ℚ)]] (by simp [sum2])⟩

/-- Claim C4: the spec reads `solar_PV_model` as computing
efficiency = 0.9 * (1 - 0.0042 * (T - 25)) and
capacity_factor = efficiency * (irradiance / 1000) per cell, then the
mask-weighted mean, yielding exactly 0.9 at T = 25, irradiance = 1000 under
an all-ones mask.  The code instead raises `NameError` on every call,
because its body reads the unbound name `Masked_T2m` rather than its
parameters; the intended model does yield 0.9 at that input. -/
theorem solar_PV_model_crashes_on_reference_input :
    solar_PV_model [[[25]]] [[[1000]]] = Except.error (PyError.nameError "Masked_T2m") ∧
    solar_PV_intended [[[25]]] [[[1000]]] [[1]] = [0.9] := by
  exact ⟨rfl, by norm_num [solar_PV_intended, dot2, sum2]⟩

/-- Claim C5: the spec reads `calc_national_wd_demand_2017` as returning
demand[i] = b0 + b1 * HDD[i] + b2 * CDD[i], e.g. [102, 103] for
coefficients (100, 2, 3) with HDD = [1, 0], CDD = [0, 1].  The code body is
the single statement `return(demand_timeseries)` with `demand_timeseries`
unbound, so every call raises `NameError`; the intended regression model
yields the claimed [102, 103]. -/
theorem calc_national_wd_demand_crashes :
    calc_national_wd_demand_2017 [1, 0] [0, 1] "/coeffs/demand_model.csv" "Czech_Republic"
      = Except.error (PyError.nameError "demand_timeseries") ∧
    demand_intended 100 2 3 [1, 0] [0, 1] = [102, 103] := by
  exact ⟨rfl, by norm_num [demand_intended]⟩

/-- Claim C6: the claim says a cell is set to 1.0 iff its center lies in ANY
polygon part.  The code tests only `country_shapely[0]`: with parts
[part_none, part_all] (the point (0, 0) lies in the second part but not the
first) the code mask is [[0]] while the any-part mask is [[1]]. -/
theorem build_mask_tests_only_first_part :
    build_mask_matrix [part_none, part_all] [0] [0] = Except.ok [[0]] ∧
    contains part_all (0, 0) = true ∧
    build_mask_intended [part_none, part_all] [0] [0] = [[1]] := by
  exact ⟨rfl, rfl, rfl⟩

/-- Claim C7: for every nonempty list of polygon parts and every grid, the
constructed mask has `lats.length` rows, every row has `lons.length`
entries, and every entry is 0 or 1. -/
theorem build_mask_shape_and_binary (p : Region) (rest : List Region) (lons lats : List ℚ) :
    ∃ m, build_mask_matrix (p :: rest) lons lats = Except.ok m ∧
      m.length = lats.length ∧
      m.all (fun row => row.length == lons.length) = true ∧
      m.all (fun row => row.all (fun v => v == 0 || v == 1)) = true := by
  refine ⟨lats.map (fun la => lons.map (fun lo =>
      if contains p (lo, la) then (1 : ℚ) else 0)), rfl, by simp, ?_, ?_⟩
  · rw [List.all_eq_true]
    intro row hrow
    rw [List.mem_map] at hrow
    obtain ⟨la, _, rfl⟩ := hrow
    simp
  · rw [List.all_eq_true]
    intro row hrow
    rw [List.mem_map] at hrow
    obtain ⟨la, _, rfl⟩ := hrow
    rw [List.all_eq_true]
    intro v hv
    rw [List.mem_map] at hv
    obtain ⟨lo, _, rfl⟩ := hv
    cases hc : contains p (lo, la) <;> simp [hc]

/-- Claim C8: the loader applies exactly the two fixed unit conversions:
"t2m" subtracts 273.15 from every value, "ssrd" divides every value by
3600, and every other key returns the field unchanged. -/
theorem unit_conversions_exact :
    (∀ (d : Field3) (lons lats : List ℚ),
      load_weather_data_daily "t2m" d lons lats
        = (d.map (List.map (List.map (fun x => x - 273.15))), lons, lats)) ∧
    (∀ (d : Field3) (lons lats : List ℚ),
      load_weather_data_daily "ssrd" d lons lats
        = (d.map (List.map (List.map (fun x => x / 3600))), lons, lats)) ∧
    (∀ (k : String) (d : Field3) (lons lats : List ℚ), k ≠ "t2m" → k ≠ "ssrd" →
      load_weather_data_daily k d lons lats = (d, lons, lats)) := by
  refine ⟨fun d lons lats => rfl, fun d lons lats => rfl, ?_⟩
  intro k d lons lats hk1 hk2
  simp [load_weather_data_daily, convert_units, hk1, hk2]

/-- Witness for C8 at key "rsds" (neither "t2m" nor "ssrd"): the field is
passed through unconverted. -/
theorem unit_conversions_exact_witness :
    ("rsds" ≠ "t2m") ∧ ("rsds" ≠ "ssrd") ∧
    load_weather_data_daily "rsds" [[[(280 : ℚ)]]] [0] [50]
      = ([[[(280 : ℚ)]]], [0], [50]) :=
  ⟨by decide, by decide,
    unit_conversions_exact.2.2 "rsds" [[[(280 : ℚ)]]] [0] [50] (by decide) (by decide)⟩

/-- Claim C9: when the country name matched zero polygon parts
(`country_shapely = []`), the masking loop raises `IndexError` (a Python
`LookupError`) at `country_shapely[0]` on its first iteration, for every
nonempty grid; the call never returns an all-zero mask or masked data. -/
theorem empty_country_lookup_errors (nc_key : String) (data : Field3)
    (lons lats : List ℚ) (hlons : lons ≠ []) (hlats : lats ≠ []) :
    load_country_weather_data [] nc_key data lons lats
      = Except.error (PyError.indexError "list index out of range") := by
  have h : ¬ lons.length * lats.length = 0 := by
    rcases lons with _ | ⟨x, xs⟩
    · exact absurd rfl hlons
    · rcases lats with _ | ⟨y, ys⟩
      · exact absurd rfl hlats
      · simp
  unfold load_country_weather_data build_mask_matrix
  rw [if_neg h]
  rfl

/-- Witness for C9 at a 1x1 grid with a "t2m" field. -/
theorem empty_country_lookup_errors_witness :
    ([(0 : ℚ)] ≠ ([] : List ℚ)) ∧
    load_country_weather_data [] "t2m" [[[280]]] [(0 : ℚ)] [(50 : ℚ)]
      = Except.error (PyError.indexError "list index out of range") :=
  ⟨by decide,
    empty_country_lookup_errors "t2m" [[[280]]] [(0 : ℚ)] [(50 : ℚ)]
      (by decide) (by decide)⟩

/-- Claim C10: `solar_PV_model` ignores both of its parameters — its body
reads only the unbound names `Masked_T2m`, `Masked_SWGDN`,
`MASK_MATRIX_RESHAPE` — so any two calls behave identically, each raising
`NameError` for the first unbound name read. -/
theorem solar_PV_model_independent_of_args (a b c d : Field3) :
    solar_PV_model a b = solar_PV_model c d ∧
    solar_PV_model a b = Except.error (PyError.nameError "Masked_T2m") :=
  ⟨rfl, rfl⟩
